import Mathlib

/-!
Verification development for the `stemquests` repository: a shallow
embedding of `src/tor_requests/check_tor.py` and
`src/stemquests/tor_instance.py`, with theorems settling the frozen
claims about the session manager, the launcher and the prober.

Conventions of the embedding:
* Python strings are `String`, Python ints are `Int` (session counters,
  which are non-negative throughout, are `Nat`).
* `requests.Session` objects are identified by a numeric id; their
  mutable `proxies` field lives in an association list of the manager
  state, so overwriting in place is an update under the same id.
* The environment (outcome of each `check_tor` probe, of each
  `launch_tor_with_config` call, of each process-list scan) is passed in
  as a list consumed one element per call; when the list runs out the
  embedding returns `none` (the run is longer than the supplied trace).
* Side effects (dict insertion, probing, sleeping, incrementing,
  returning, raising) are recorded as an event trace so that ordering
  claims can be stated.
-/

/-! ## Connectivity prober (`src/tor_requests/check_tor.py`) -/

/-- The fixed marker sentence tested for in the response body. -/
def torSuccessMarker : String := "Congratulations. This browser is configured to use Tor."

/-- The fixed verification URL the prober issues its GET to. -/
def torCheckUrl : String := "https://check.torproject.org"

/-- Embedding of Python's `needle in hay` substring test on the
underlying character lists: the needle is a prefix of some suffix. -/
def strIn : List Char → List Char → Bool
  | needle, [] => needle.isEmpty
  | needle, c :: t => needle.isPrefixOf (c :: t) || strIn needle t

/-- Embedding of `check_tor`, given the response body: the test
`"Congratulations. This browser is configured to use Tor." in tor_check.text`. -/
def check_tor (body : String) : Bool :=
  strIn torSuccessMarker.data body.data

/-- Embedding of `check_tor` at the transport level: the `with session.get(...)` block
catches nothing, so a transport-level failure propagates unchanged and
only a delivered body is tested for the marker. -/
def check_tor_run : Except String String → Except String Bool
  | .error e => .error e
  | .ok body => .ok (check_tor body)

theorem strIn_spec (needle hay : List Char) :
    strIn needle hay = true ↔ needle <:+: hay := by
  induction hay with
  | nil =>
      simp [strIn, List.isEmpty_iff, List.infix_nil]
  | cons c t ih =>
      simp [strIn, List.infix_cons_iff, ih, List.isPrefixOf_iff_prefix]

/-! ## Process launcher (`TorInstance._start_tor`) -/

/-- Result of the `_start_tor` launch loop, instrumented with how many
`launch_tor_with_config` calls, process-list scans, and process kills
were performed. -/
inductive StartTorResult where
  | ok (launchCalls scans kills : Nat)
  | err (launchCalls scans kills : Nat)
  | spin
  deriving DecidableEq, Repr

/-- The `while not tor_launched` loop of `_start_tor`.  `launches` gives
the outcome of each `launch_tor_with_config` call (`true` = launched,
`false` = `OSError`); `procs` gives, for each process-list scan, how
many processes named `tor.exe`/`tor` are found (and killed).  On an
`OSError` with `kill_old_tor = false` the error is re-raised at once;
otherwise the list is scanned, every match killed, and the loop retried
unconditionally. -/
def start_tor_loop (kill_old_tor : Bool) :
    List Bool → List Nat → Nat → Nat → Nat → StartTorResult
  | [], _, _, _, _ => .spin
  | true :: _, _, calls, scans, kills => .ok (calls + 1) scans kills
  | false :: rest, procs, calls, scans, kills =>
      if kill_old_tor then
        start_tor_loop kill_old_tor rest procs.tail
          (calls + 1) (scans + 1) (kills + procs.headD 0)
      else .err (calls + 1) scans kills

/-- Entry point of `_start_tor`, with fresh books. -/
def start_tor (kill_old_tor : Bool) (launches : List Bool) (procs : List Nat) :
    StartTorResult :=
  start_tor_loop kill_old_tor launches procs 0 0 0

/-! ## Session manager state (`TorInstance`) -/

/-- The `http`/`https` proxy mapping assigned to a `requests.Session`. -/
structure Proxies where
  http : String
  https : String
  deriving DecidableEq, Repr

/-- The proxy URL for session number `n`: scheme socks5h, then the
credential `tor` + `str(n)` twice, at host localhost on `port`. -/
def proxyUrl (n : Nat) (port : Int) : String :=
  "socks5h://tor" ++ toString n ++ ":tor" ++ toString n ++ "@localhost:" ++ toString port

/-- Both proxy entries a session receives for session number `n`. -/
def mkProxies (n : Nat) (port : Int) : Proxies :=
  ⟨proxyUrl n port, proxyUrl n port⟩

/-- Observable side effects of the session-manager code, in program
order: proxy (re)assignment with the credential number, dict insertion
`current_sessions[key] = client`, a probe of a client with its outcome,
the 5-second sleep, the success log line, `current_session_number += 1`,
a normal return carrying the returned number, a raised
`TorConnectionError` carrying the session number in its message. -/
inductive Event where
  | assign (client : Nat) (sessionNum : Nat)
  | insert (key : Nat) (client : Nat)
  | probe (client : Nat) (ok : Bool)
  | sleep
  | logOk
  | incr
  | ret (client : Nat) (retNum : Nat)
  | raiseErr (sessionNum : Nat)
  deriving DecidableEq, Repr

/-- Mutable state of a `TorInstance`: the session counter, the port, the
base client id, the next fresh `requests.Session()` id, the
`current_sessions` dict (an association list, most recent first), and
each client's current `proxies` field (same representation). -/
structure TorState where
  counter : Nat
  port : Int
  base : Nat
  nextId : Nat
  sessions : List (Nat × Nat)
  clientProxies : List (Nat × Proxies)
  deriving DecidableEq, Repr

/-- Association-list lookup by client/session id (most recent binding wins,
matching in-place overwrite of a Python attribute or dict key). -/
def lookupA {α : Type} : List (Nat × α) → Nat → Option α
  | [], _ => none
  | (k, v) :: t, k' => if k = k' then some v else lookupA t k'

/-- Result of `get_session_with_number`: a returned `(session, number)`
pair, or a raised `TorConnectionError` whose message carries the
session number current when it was raised. -/
inductive SessionResult where
  | ok (client : Nat) (retNum : Nat)
  | connErr (sessionNum : Nat)
  deriving DecidableEq, Repr

/-- A completed run of `get_session_with_number`: the result, the final
manager state, the number of sleeps and probe attempts, and the event
trace. -/
structure GsnOutput where
  result : SessionResult
  state : TorState
  sleeps : Nat
  atts : Nat
  events : List Event
  deriving DecidableEq, Repr

/-- The body of `TorInstance.get_session_with_number`, with `probes`
supplying each `check_tor` outcome and `ev`/`sleeps`/`atts` the books
accumulated so far.  Per call: pick `parent_session or self.base_session`,
derive credentials from the current counter, overwrite the client's
proxies, insert the client into `current_sessions` under the current
counter, probe; on success log, increment and return
`(session, self.current_session_number)` (the post-increment value); on
failure with `max_tries <= 0` increment and raise; otherwise sleep and
recurse on `(session, max_tries - 1)`, returning the recursive result. -/
def getSessionAux (st : TorState) (parent : Option Nat) (maxTries : Int)
    (ev : List Event) (sleeps atts : Nat) : List Bool → Option GsnOutput
  | [] => none
  | p :: rest =>
      let client := parent.getD st.base
      let n := st.counter
      let st1 : TorState :=
        { st with clientProxies := (client, mkProxies n st.port) :: st.clientProxies,
                  sessions := (n, client) :: st.sessions }
      let ev1 := ev ++ [.assign client n, .insert n client, .probe client p]
      if p then
        some ⟨.ok client (n + 1), { st1 with counter := n + 1 }, sleeps, atts + 1,
              ev1 ++ [.logOk, .incr, .ret client (n + 1)]⟩
      else if maxTries ≤ 0 then
        some ⟨.connErr n, { st1 with counter := n + 1 }, sleeps, atts + 1,
              ev1 ++ [.incr, .raiseErr n]⟩
      else
        getSessionAux st1 (some client) (maxTries - 1)
          (ev1 ++ [.sleep]) (sleeps + 1) (atts + 1) rest

/-- Entry point of `TorInstance.get_session_with_number`, with fresh books. -/
def get_session_with_number (st : TorState) (parent : Option Nat)
    (maxTries : Int) (probes : List Bool) : Option GsnOutput :=
  getSessionAux st parent maxTries [] 0 0 probes

/-- Result of `_get_base_session`: the returned base client, or a raised
`TorConnectionError`. -/
inductive BaseResult where
  | okBase (client : Nat)
  | raisedErr
  deriving DecidableEq, Repr

/-- A completed run of `_get_base_session`. -/
structure GbsOutput where
  result : BaseResult
  state : TorState
  sleeps : Nat
  atts : Nat
  events : List Event
  deriving DecidableEq, Repr

/-- The per-frame body of `TorInstance._get_base_session`, once
`base_session = parent_session or requests.Session()` has resolved to a
definite `client` (the first frame may allocate; every recursive frame
passes `base_session` on, so the client is fixed down the recursion).
Per frame: overwrite the client's proxies with credentials from the
current counter, probe; on failure with `max_tries <= 0` raise without
touching the counter or the dict; on failure with retries left, sleep
and recurse — and, crucially, the recursive call's result is discarded,
so when it returns normally the calling frame falls through to the
success tail as well; the success tail logs, inserts the client under
the current counter, increments, and returns the client (the `ret`
event records the key it was inserted under). -/
def getBaseAux (st : TorState) (client : Nat) (maxTries : Int)
    (ev : List Event) (sleeps atts : Nat) : List Bool → Option GbsOutput
  | [] => none
  | p :: rest =>
      let st1 : TorState :=
        { st with clientProxies := (client, mkProxies st.counter st.port) :: st.clientProxies }
      let ev1 := ev ++ [.assign client st.counter, .probe client p]
      if p then
        some ⟨.okBase client,
              { st1 with sessions := (st1.counter, client) :: st1.sessions,
                         counter := st1.counter + 1 },
              sleeps, atts + 1,
              ev1 ++ [.logOk, .insert st1.counter client, .incr, .ret client st1.counter]⟩
      else if maxTries ≤ 0 then
        some ⟨.raisedErr, st1, sleeps, atts + 1, ev1 ++ [.raiseErr st1.counter]⟩
      else
        match getBaseAux st1 client (maxTries - 1)
            (ev1 ++ [.sleep]) (sleeps + 1) (atts + 1) rest with
        | none => none
        | some inner =>
            match inner.result with
            | .raisedErr => some inner
            | .okBase _ =>
                some ⟨.okBase client,
                      { inner.state with
                          sessions := (inner.state.counter, client) :: inner.state.sessions,
                          counter := inner.state.counter + 1 },
                      inner.sleeps, inner.atts,
                      inner.events ++ [.logOk, .insert inner.state.counter client, .incr,
                                       .ret client inner.state.counter]⟩

/-- Entry point of `TorInstance._get_base_session`, with fresh books:
with no parent a fresh `requests.Session()` is allocated for the base
client, otherwise the supplied parent is reused. -/
def get_base_session (st : TorState) (parent : Option Nat)
    (maxTries : Int) (probes : List Bool) : Option GbsOutput :=
  match parent with
  | some c => getBaseAux st c maxTries [] 0 0 probes
  | none => getBaseAux { st with nextId := st.nextId + 1 } st.nextId maxTries [] 0 0 probes

/-- Number of `counter += 1` events in a trace. -/
def countIncrE : List Event → Nat
  | [] => 0
  | Event.incr :: t => countIncrE t + 1
  | _ :: t => countIncrE t

/-- Number of `sleep(5)` events in a trace. -/
def countSleepE : List Event → Nat
  | [] => 0
  | Event.sleep :: t => countSleepE t + 1
  | _ :: t => countSleepE t

/-- Number of success log lines in a trace. -/
def countLogOk : List Event → Nat
  | [] => 0
  | Event.logOk :: t => countLogOk t + 1
  | _ :: t => countLogOk t

theorem countIncrE_append (xs ys : List Event) :
    countIncrE (xs ++ ys) = countIncrE xs + countIncrE ys := by
  induction xs with
  | nil => simp [countIncrE]
  | cons x t ih => cases x <;> simp [countIncrE, ih, Nat.add_right_comm]

theorem countSleepE_append (xs ys : List Event) :
    countSleepE (xs ++ ys) = countSleepE xs + countSleepE ys := by
  induction xs with
  | nil => simp [countSleepE]
  | cons x t ih => cases x <;> simp [countSleepE, ih, Nat.add_right_comm]

theorem countLogOk_append (xs ys : List Event) :
    countLogOk (xs ++ ys) = countLogOk xs + countLogOk ys := by
  induction xs with
  | nil => simp [countLogOk]
  | cons x t ih => cases x <;> simp [countLogOk, ih, Nat.add_right_comm]

/-- Helper for claim C2: however many retry frames a
`get_session_with_number` call goes through, the counter is incremented
in exactly one frame (the one that returns or raises), so the final
counter is the initial counter plus one. -/
theorem getSessionAux_counter (probes : List Bool) :
    ∀ st parent mt ev sl a out,
      getSessionAux st parent mt ev sl a probes = some out →
      out.state.counter = st.counter + 1 := by
  induction probes with
  | nil =>
      intro st parent mt ev sl a out h
      simp [getSessionAux] at h
  | cons p rest ih =>
      intro st parent mt ev sl a out h
      cases p with
      | true =>
          simp [getSessionAux] at h
          rw [← h]
      | false =>
          by_cases hmt : mt ≤ 0
          · simp [getSessionAux, hmt] at h
            rw [← h]
          · simp [getSessionAux, hmt] at h
            have hh := ih _ _ _ _ _ _ _ h
            exact hh

/-- Claim C2: whether `get_session_with_number` returns or raises after
exhausting retries, the session counter after the call equals its value
before the call plus exactly one, regardless of how many intermediate
probe failures and recursive retries occurred. -/
theorem counter_after_call (st : TorState) (parent : Option Nat) (mt : Int)
    (probes : List Bool) (out : GsnOutput) ( _hmt : 0 ≤ mt)
    (h : get_session_with_number st parent mt probes = some out) :
    out.state.counter = st.counter + 1 :=
  getSessionAux_counter probes st parent mt [] 0 0 out h

/-- Witness for claim C2 at a concrete input: counter `0`, no parent,
five retries allowed, first probe succeeds; the counter ends at `1`. -/
theorem counter_after_call_witness :
    (⟨.ok 0 1, ⟨1, 9051, 0, 1, [(0, 0)], [(0, mkProxies 0 9051)]⟩, 0, 1,
      [.assign 0 0, .insert 0 0, .probe 0 true, .logOk, .incr, .ret 0 1]⟩ :
        GsnOutput).state.counter =
      (⟨0, 9051, 0, 1, [], []⟩ : TorState).counter + 1 :=
  counter_after_call ⟨0, 9051, 0, 1, [], []⟩ none 5 [true] _ (by decide) rfl

/-- Claim C1 (at the failing input): with the counter at `0` and a
first-attempt probe success, the session's credentials and its key in
`current_sessions` use number `0`, but the returned pair carries the
post-increment counter value `1`, not `0` as documented. -/
theorem getSession_returns_post_increment :
    ∃ o, get_session_with_number ⟨0, 9051, 0, 1, [], []⟩ (some 7) 5 [true] = some o ∧
      o.result = .ok 7 1 ∧
      o.result ≠ .ok 7 0 ∧
      o.state.sessions = [(0, 7)] ∧
      lookupA o.state.clientProxies 7 = some (mkProxies 0 9051) ∧
      o.state.counter = 1 :=
  ⟨_, rfl, rfl, by decide, rfl, rfl, rfl⟩

/-- Claim C4: with `max_tries = 0` and a failing probe,
`get_session_with_number` raises `TorConnectionError` immediately — one
probe attempt, zero sleeps — and the counter is incremented exactly
once. -/
theorem zero_retries_immediate (st : TorState) (parent : Option Nat) :
    ∃ out, get_session_with_number st parent 0 [false] = some out ∧
      out.result = .connErr st.counter ∧
      out.sleeps = 0 ∧
      countSleepE out.events = 0 ∧
      out.state.counter = st.counter + 1 ∧
      countIncrE out.events = 1 ∧
      out.atts = 1 :=
  ⟨_, rfl, rfl, rfl, rfl, rfl, rfl, rfl⟩

/-- Claim C9: the connectivity prober `check_tor` returns `true` exactly
when the fixed marker sentence occurs verbatim in the body; the empty
body and a near-miss missing the first period yield `false`, the marker
itself yields `true`, and a transport-level failure propagates uncaught
through `check_tor_run`. -/
theorem check_tor_marker_iff :
    (∀ body : String, check_tor body = true ↔ torSuccessMarker.data <:+: body.data) ∧
    check_tor "" = false ∧
    check_tor "Congratulations This browser is configured to use Tor." = false ∧
    check_tor torSuccessMarker = true ∧
    (∀ e : String, check_tor_run (.error e) = .error e) := by
  refine ⟨fun body => strIn_spec _ _, by decide, by decide, by decide, fun e => rfl⟩

/-- Claim C6: with `kill_old_tor = false`, a first launch attempt that
fails with the OS-level in-use error is surfaced immediately: exactly
one launch call, no process-list scan, no kill, no retry. -/
theorem start_tor_no_kill_immediate_error (rest : List Bool) (procs : List Nat) :
    start_tor false (false :: rest) procs = .err 1 0 0 := by
  simp [start_tor, start_tor_loop]

/-- Helper for claim C3: on every run of the `_get_base_session` frame
body that ends in a raised `TorConnectionError`, the session counter and
the session mapping are exactly as they were at entry — the raise
branch touches neither. -/
theorem getBaseAux_raise_books (probes : List Bool) :
    ∀ st c mt ev sl a out,
      getBaseAux st c mt ev sl a probes = some out →
      out.result = BaseResult.raisedErr →
      out.state.counter = st.counter ∧ out.state.sessions = st.sessions := by
  induction probes with
  | nil =>
      intro st c mt ev sl a out h hr
      simp [getBaseAux] at h
  | cons p rest ih =>
      intro st c mt ev sl a out h hr
      cases p with
      | true =>
          simp [getBaseAux] at h
          rw [← h] at hr
          simp at hr
      | false =>
          by_cases hmt : mt ≤ 0
          · simp [getBaseAux, hmt] at h
            rw [← h]
            exact ⟨rfl, rfl⟩
          · simp [getBaseAux, hmt] at h
            split at h
            · simp at h
            · split at h
              · next hres =>
                  cases h
                  have hb := ih _ _ _ _ _ _ _ (by assumption) hres
                  exact hb
              · next c' hres =>
                  cases h
                  simp at hr

/-- Claim C3 counterexample: base-session construction with the counter
at `0`, no retries left, and a failing probe raises the fatal
`TorConnectionError` with the counter still `0` — it is not incremented
to `1` before the raise, so the exhausted session number 0 would be the
next one assigned. -/
theorem base_exhaustion_no_increment :
    ∃ o, get_base_session ⟨0, 9051, 0, 1, [], []⟩ none 0 [false] = some o ∧
      o.result = .raisedErr ∧
      o.state.counter = 0 ∧
      ¬ o.state.counter = 1 :=
  ⟨_, rfl, rfl, rfl, by decide⟩

/-- Claim C3 (amended): when `_get_base_session` exhausts its retries
and raises the fatal `TorConnectionError`, it does so without
incrementing the session counter and without inserting anything into
the session mapping — both are exactly as they were at entry, so the
exhausted session number 0 stays the next number to be assigned. -/
theorem base_session_raise_books (st : TorState) (parent : Option Nat)
    (mt : Int) (probes : List Bool) (out : GbsOutput)
    (h : get_base_session st parent mt probes = some out)
    (hr : out.result = BaseResult.raisedErr) :
    out.state.counter = st.counter ∧ out.state.sessions = st.sessions := by
  cases parent with
  | some c => exact getBaseAux_raise_books probes st c mt [] 0 0 out h hr
  | none =>
      have hb := getBaseAux_raise_books probes _ _ mt [] 0 0 out h hr
      exact hb

/-- Witness for claim C3's amended theorem at a concrete input: counter
`0`, no parent, no retries, failing probe. -/
theorem base_session_raise_books_witness :
    (⟨.raisedErr, ⟨0, 9051, 0, 2, [], [(1, mkProxies 0 9051)]⟩, 0, 1,
      [.assign 1 0, .probe 1 false, .raiseErr 0]⟩ : GbsOutput).state.counter =
        (⟨0, 9051, 0, 1, [], []⟩ : TorState).counter ∧
    (⟨.raisedErr, ⟨0, 9051, 0, 2, [], [(1, mkProxies 0 9051)]⟩, 0, 1,
      [.assign 1 0, .probe 1 false, .raiseErr 0]⟩ : GbsOutput).state.sessions =
        (⟨0, 9051, 0, 1, [], []⟩ : TorState).sessions :=
  base_session_raise_books ⟨0, 9051, 0, 1, [], []⟩ none 0 [false] _ rfl rfl

/-- Claim C8: with `max_tries = 5` and a probe that fails twice then
succeeds, all three attempts derive credentials from the same session
number `st.counter` (three `assign` events with the same number), reuse
the same client object `c` (its proxies entry is overwritten under the
same id, and no fresh client id is consumed), and the call returns that
client verified, the entry for that same session number being the
client. -/
theorem retry_reuses_number_and_client (st : TorState) (c : Nat) :
    get_session_with_number st (some c) 5 [false, false, true] =
      some ⟨.ok c (st.counter + 1),
            { st with
                counter := st.counter + 1,
                sessions := (st.counter, c) :: (st.counter, c) :: (st.counter, c) :: st.sessions,
                clientProxies := (c, mkProxies st.counter st.port) ::
                  (c, mkProxies st.counter st.port) ::
                  (c, mkProxies st.counter st.port) :: st.clientProxies },
            2, 3,
            [.assign c st.counter, .insert st.counter c, .probe c false, .sleep,
             .assign c st.counter, .insert st.counter c, .probe c false, .sleep,
             .assign c st.counter, .insert st.counter c, .probe c true, .logOk, .incr,
             .ret c (st.counter + 1)]⟩ := rfl

/-- Does an event record a successful probe of client `c`? -/
def isProbeOkOf (c : Nat) : Event → Bool
  | .probe c' true => c' = c
  | _ => false

/-- Does an event record a raised `TorConnectionError`? -/
def isRaiseEv : Event → Bool
  | .raiseErr _ => true
  | _ => false

/-- Checker for the spec's claimed mapping invariant, read over an event
trace with `past` the events already seen: every insertion must either
be preceded by a successful probe of the inserted client or be followed
by a raised error later in the trace. -/
def insertsVerifiedOrFatal : List Event → List Event → Bool
  | _, [] => true
  | past, e :: rest =>
      (match e with
       | .insert _ c => past.any (isProbeOkOf c) || rest.any isRaiseEv
       | _ => true) && insertsVerifiedOrFatal (past ++ [e]) rest

/-- The spec's claimed invariant over a whole trace. -/
def sessionInsertInvariant (evs : List Event) : Bool :=
  insertsVerifiedOrFatal [] evs

/-- Claim C7 counterexample: a reachable scenario — construct the
manager (base probe succeeds first try), then request a session passing
a fresh, never-probed parent client (id 99) whose probe succeeds first
try.  The call returns successfully, no error is raised, yet client 99
was inserted into the session mapping before any successful probe of
it, so the claimed invariant is false on the trace. -/
theorem insert_invariant_counterexample :
    ∃ bo go, get_base_session ⟨0, 9051, 0, 1, [], []⟩ none 5 [true] = some bo ∧
      get_session_with_number { bo.state with base := 1 } (some 99) 5 [true] = some go ∧
      go.result = .ok 99 2 ∧
      (bo.events ++ go.events).any isRaiseEv = false ∧
      sessionInsertInvariant (bo.events ++ go.events) = false :=
  ⟨_, _, rfl, rfl, rfl, by decide, by decide⟩

/-- Helper for claim C7's amended form: every completed
`get_session_with_number` call ends, in trace order, with a proxy
assignment, the insertion of the client under the frame's counter
value, the probe of that client, and then either the success tail
(log, increment, return) when the probe succeeded, or the failure tail
(increment, raise) when it failed with no retries left. -/
theorem getSessionAux_last_events (probes : List Bool) :
    ∀ st parent mt ev sl a out,
      getSessionAux st parent mt ev sl a probes = some out →
      (out.result = SessionResult.ok (parent.getD st.base) (st.counter + 1) ∧
        [Event.assign (parent.getD st.base) st.counter,
         Event.insert st.counter (parent.getD st.base),
         Event.probe (parent.getD st.base) true, Event.logOk, Event.incr,
         Event.ret (parent.getD st.base) (st.counter + 1)] <:+ out.events) ∨
      (out.result = SessionResult.connErr st.counter ∧
        [Event.assign (parent.getD st.base) st.counter,
         Event.insert st.counter (parent.getD st.base),
         Event.probe (parent.getD st.base) false, Event.incr,
         Event.raiseErr st.counter] <:+ out.events) := by
  induction probes with
  | nil =>
      intro st parent mt ev sl a out h
      simp [getSessionAux] at h
  | cons p rest ih =>
      intro st parent mt ev sl a out h
      cases p with
      | true =>
          left
          simp [getSessionAux] at h
          rw [← h]
          refine ⟨rfl, ?_⟩
          simp only [List.append_assoc]
          exact List.suffix_append _ _
      | false =>
          by_cases hmt : mt ≤ 0
          · right
            simp [getSessionAux, hmt] at h
            rw [← h]
            refine ⟨rfl, ?_⟩
            simp only [List.append_assoc]
            exact List.suffix_append _ _
          · simp [getSessionAux, hmt] at h
            have hrec := ih _ _ _ _ _ _ _ h
            exact hrec

/-- Claim C7 (amended): in `get_session_with_number` every insertion
into the session mapping precedes its probe rather than following a
passed one; a call returns successfully only when the probe performed
right after the final insertion succeeded, and when that probe failed
with no retries remaining the call raises — a failed probe never
silently yields a successfully returned session. -/
theorem session_verified_before_return (st : TorState) (parent : Option Nat)
    (mt : Int) (probes : List Bool) (out : GsnOutput)
    (h : get_session_with_number st parent mt probes = some out) :
    (out.result = SessionResult.ok (parent.getD st.base) (st.counter + 1) ∧
      [Event.assign (parent.getD st.base) st.counter,
       Event.insert st.counter (parent.getD st.base),
       Event.probe (parent.getD st.base) true, Event.logOk, Event.incr,
       Event.ret (parent.getD st.base) (st.counter + 1)] <:+ out.events) ∨
    (out.result = SessionResult.connErr st.counter ∧
      [Event.assign (parent.getD st.base) st.counter,
       Event.insert st.counter (parent.getD st.base),
       Event.probe (parent.getD st.base) false, Event.incr,
       Event.raiseErr st.counter] <:+ out.events) :=
  getSessionAux_last_events probes st parent mt [] 0 0 out h

/-- Witness for claim C7's amended theorem at a concrete input: counter
`0`, no parent, first probe succeeds. -/
theorem session_verified_before_return_witness :
    ((⟨.ok 0 1, ⟨1, 9051, 0, 1, [(0, 0)], [(0, mkProxies 0 9051)]⟩, 0, 1,
        [.assign 0 0, .insert 0 0, .probe 0 true, .logOk, .incr, .ret 0 1]⟩ :
          GsnOutput).result = SessionResult.ok 0 1 ∧
      [Event.assign 0 0, Event.insert 0 0, Event.probe 0 true, Event.logOk,
       Event.incr, Event.ret 0 1] <:+
        (⟨.ok 0 1, ⟨1, 9051, 0, 1, [(0, 0)], [(0, mkProxies 0 9051)]⟩, 0, 1,
          [.assign 0 0, .insert 0 0, .probe 0 true, .logOk, .incr, .ret 0 1]⟩ :
            GsnOutput).events) ∨
    ((⟨.ok 0 1, ⟨1, 9051, 0, 1, [(0, 0)], [(0, mkProxies 0 9051)]⟩, 0, 1,
        [.assign 0 0, .insert 0 0, .probe 0 true, .logOk, .incr, .ret 0 1]⟩ :
          GsnOutput).result = SessionResult.connErr 0 ∧
      [Event.assign 0 0, Event.insert 0 0, Event.probe 0 false, Event.incr,
       Event.raiseErr 0] <:+
        (⟨.ok 0 1, ⟨1, 9051, 0, 1, [(0, 0)], [(0, mkProxies 0 9051)]⟩, 0, 1,
          [.assign 0 0, .insert 0 0, .probe 0 true, .logOk, .incr, .ret 0 1]⟩ :
            GsnOutput).events) :=
  session_verified_before_return ⟨0, 9051, 0, 1, [], []⟩ none 5 [true] _ rfl

/-- Helper for claim C10: running the `_get_base_session` frame body
with a fixed client against `k` probe failures followed by one success,
with at least `k` retries allowed, succeeds; each of the `k + 1` frames
falls through the success tail (the recursive result is discarded), so
the counter advances by `k + 1`, the session mapping gains the `k + 1`
entries `(st.counter + k, c), …, (st.counter, c)` all holding the same
client, the success log line and the increment each occur `k + 1` more
times, and no fresh client id is consumed. -/
theorem getBaseAux_retry_ladder (k : Nat) :
    ∀ st c mt ev sl a, (k : Int) ≤ mt →
      ∃ out, getBaseAux st c mt ev sl a (List.replicate k false ++ [true]) = some out ∧
        out.result = BaseResult.okBase c ∧
        out.state.counter = st.counter + (k + 1) ∧
        out.state.sessions =
          ((List.range (k + 1)).reverse.map fun i => (st.counter + i, c)) ++ st.sessions ∧
        countLogOk out.events = countLogOk ev + (k + 1) ∧
        countIncrE out.events = countIncrE ev + (k + 1) ∧
        out.state.nextId = st.nextId := by
  induction k with
  | zero =>
      intro st c mt ev sl a hmt
      refine ⟨_, rfl, rfl, rfl, ?_, ?_, ?_, rfl⟩
      · simp [List.range_succ]
      · simp [countLogOk_append, countLogOk]
      · simp [countIncrE_append, countIncrE]
  | succ k ihk =>
      intro st c mt ev sl a hmt
      have hmt0 : ¬ mt ≤ 0 := by
        have : ((k : Int) + 1) ≤ mt := by exact_mod_cast hmt
        omega
      have hmt' : (k : Int) ≤ mt - 1 := by
        have : ((k : Int) + 1) ≤ mt := by exact_mod_cast hmt
        omega
      obtain ⟨inner, hin, hres, hcnt, hsess, hlog, hincr, hnext⟩ :=
        ihk { st with clientProxies := (c, mkProxies st.counter st.port) :: st.clientProxies }
          c (mt - 1)
          (ev ++ [Event.assign c st.counter, Event.probe c false, Event.sleep])
          (sl + 1) (a + 1) hmt'
      refine ⟨⟨BaseResult.okBase c,
               { inner.state with
                   sessions := (inner.state.counter, c) :: inner.state.sessions,
                   counter := inner.state.counter + 1 },
               inner.sleeps, inner.atts,
               inner.events ++ [Event.logOk, Event.insert inner.state.counter c, Event.incr,
                                Event.ret c inner.state.counter]⟩, ?_, rfl, ?_, ?_, ?_, ?_, ?_⟩
      · simp only [List.replicate_succ, List.cons_append]
        simp only [getSessionAux, getBaseAux, Bool.false_eq_true, if_false, hmt0,
          List.append_assoc, List.cons_append, List.nil_append]
        rw [hin]
        simp [hres]
      · simp only [hcnt]
        omega
      · simp only [hsess, hcnt, List.range_succ, List.reverse_append, List.reverse_cons,
          List.reverse_nil, List.nil_append, List.map_cons, List.map_append, List.cons_append,
          List.append_assoc]
      · simp only [countLogOk_append, countLogOk, hlog]
        omega
      · simp only [countIncrE_append, countIncrE, hincr]
        omega
      · exact hnext

/-- Claim C10: base-session construction whose probe fails `k ≥ 1`
times and then succeeds within the retry budget discards each recursive
result, so every enclosing frame also runs the success tail: the
counter ends at `k + 1` (one increment per attempt level), the success
log line and the increment each occur `k + 1` times, and the single
freshly allocated base client occupies `k + 1` distinct entries
`k, …, 1, 0` of the session mapping. -/
theorem base_retry_duplicates_entries (st : TorState) (mt : Int) (k : Nat)
    ( _hk : 1 ≤ k) (hmt : (k : Int) ≤ mt) (hc : st.counter = 0) (hs : st.sessions = []) :
    ∃ out, get_base_session st none mt (List.replicate k false ++ [true]) = some out ∧
      out.result = BaseResult.okBase st.nextId ∧
      out.state.counter = k + 1 ∧
      out.state.sessions = ((List.range (k + 1)).reverse.map fun i => (i, st.nextId)) ∧
      (out.state.sessions.map Prod.fst).Nodup ∧
      countLogOk out.events = k + 1 ∧
      countIncrE out.events = k + 1 := by
  obtain ⟨out, hrun, hres, hcnt, hsess, hlog, hincr, hnext⟩ :=
    getBaseAux_retry_ladder k { st with nextId := st.nextId + 1 } st.nextId mt [] 0 0 hmt
  refine ⟨out, hrun, hres, ?_, ?_, ?_, ?_, ?_⟩
  · rw [hcnt]
    simp [hc]
  · rw [hsess]
    simp [hc, hs]
  · rw [hsess]
    simp [hc, hs, List.map_map, Function.comp_def, List.nodup_reverse, List.nodup_range]
  · simpa [countLogOk] using hlog
  · simpa [countIncrE] using hincr

/-- Witness for claim C10 at a concrete input: counter `0`, empty
mapping, two failures then success, `max_tries = 5`. -/
theorem base_retry_duplicates_entries_witness :
    ∃ out, get_base_session ⟨0, 9051, 0, 1, [], []⟩ none 5
        (List.replicate 2 false ++ [true]) = some out ∧
      out.result = BaseResult.okBase 1 ∧
      out.state.counter = 3 ∧
      out.state.sessions = ((List.range 3).reverse.map fun i => (i, 1)) ∧
      (out.state.sessions.map Prod.fst).Nodup ∧
      countLogOk out.events = 3 ∧
      countIncrE out.events = 3 :=
  base_retry_duplicates_entries ⟨0, 9051, 0, 1, [], []⟩ 5 2 (by decide) (by decide) rfl rfl

/-! ## Constructor configuration merge (`TorInstance.__init__`) -/

/-- A Python value appearing in the stem config (the code only ever
meets ints and strings in the `SocksPort` slot). -/
inductive PyVal where
  | pyInt (n : Int)
  | pyStr (s : String)
  deriving DecidableEq, Repr

/-- Python `str()` applied to a config value. -/
def pyStrOf : PyVal → String
  | .pyInt n => toString n
  | .pyStr s => s

/-- Python `int()` on a config value; fails (raises `ValueError`) on an
unparseable string. -/
def pyToInt : PyVal → Option Int
  | .pyInt n => some n
  | .pyStr s => s.toInt?

/-- The slots of the supplied `stem_config` the constructor touches:
the `tor_cmd` key and the `SocksPort` key of the nested `config` dict.
`config = none` means the `config` key is absent, `some none` that it
is present without a `SocksPort` entry. -/
structure StemConfig where
  tor_cmd : Option String
  config : Option (Option PyVal)
  deriving DecidableEq, Repr

/-- Python truthiness of the `tor_path` argument (`None` and the empty
string are falsy). -/
def strTruthy : Option String → Bool
  | none => false
  | some s => !(s == "")

/-- What `__init__` has computed when it reaches the launch call: the
recorded `self.tor_path` and `self.port` fields and the merged
`stem_config` handed to `stem.process.launch_tor_with_config`. -/
structure InitResult where
  tor_path : Option String
  port : Int
  merged : StemConfig
  deriving DecidableEq, Repr

/-- Embedding of `TorInstance.__init__` up to the launch call.  `self.tor_path` is
the map's `tor_cmd` when present, else the argument; `self.port` is
`int()` of the map's `config.SocksPort` when present, else the
`socks_port` argument (`none` is returned when `int()` raises).  Then
the explicit arguments are folded back in: `tor_cmd` is written (with
`self.tor_path`) only when the `tor_path` argument is truthy; a missing
`config` or `SocksPort` is filled with `str(self.port)`; a `SocksPort`
already present is replaced by its own `str()` (the `is not str` type
test never fires on a value). -/
def torInstanceInit (socks_port : Int) (tor_path : Option String)
    (stem_config : Option StemConfig) : Option InitResult :=
  let sc := stem_config.getD ⟨none, none⟩
  let tp : Option String :=
    match sc.tor_cmd with
    | none => tor_path
    | some cmd => some cmd
  let portOpt : Option Int :=
    match sc.config with
    | none => some socks_port
    | some none => some socks_port
    | some (some v) => pyToInt v
  match portOpt with
  | none => none
  | some port =>
      let sc1 : StemConfig := if strTruthy tor_path then { sc with tor_cmd := tp } else sc
      let sc2 : StemConfig :=
        match sc1.config with
        | none => { sc1 with config := some (some (.pyStr (toString port))) }
        | some none => { sc1 with config := some (some (.pyStr (toString port))) }
        | some (some v) => { sc1 with config := some (some (.pyStr (pyStrOf v))) }
      some ⟨tp, port, sc2⟩

/-- Claim C5: in the configuration merge, explicit constructor
arguments only fill in keys absent from the supplied map; a `tor_cmd`
already in the map wins (and is what `self.tor_path` records), and a
`config.SocksPort` already in the map wins — the merged map carries its
`str()` and `self.port` its `int()` — while with the key absent the
merged map carries `str(socks_port)` and `self.port` the `socks_port`
argument. -/
theorem init_merge_precedence (socks_port : Int) (tor_path : Option String)
    (sc : StemConfig) (r : InitResult)
    (h : torInstanceInit socks_port tor_path (some sc) = some r) :
    (∀ cmd, sc.tor_cmd = some cmd → r.merged.tor_cmd = some cmd ∧ r.tor_path = some cmd) ∧
    (sc.tor_cmd = none → strTruthy tor_path = true →
        r.merged.tor_cmd = tor_path ∧ r.tor_path = tor_path) ∧
    (sc.tor_cmd = none → strTruthy tor_path = false →
        r.merged.tor_cmd = none ∧ r.tor_path = tor_path) ∧
    (∀ v, sc.config = some (some v) →
        r.merged.config = some (some (.pyStr (pyStrOf v))) ∧ pyToInt v = some r.port) ∧
    ((sc.config = none ∨ sc.config = some none) →
        r.merged.config = some (some (.pyStr (toString socks_port))) ∧
        r.port = socks_port) := by
  obtain ⟨tc, cfg⟩ := sc
  by_cases htp : strTruthy tor_path = true
  all_goals rcases tc with _ | cmd
  all_goals rcases cfg with _ | _ | v
  all_goals try
    (simp only [torInstanceInit, Option.getD, htp, if_true, if_false] at h
     cases h
     simp_all)
  all_goals
    (rcases hv : pyToInt v with _ | port
     all_goals simp only [torInstanceInit, Option.getD, htp, if_true, if_false, hv] at h
     · exact absurd h (by simp)
     · cases h
       simp_all)

/-- Witness for claim C5 at a concrete input: the supplied map already
carries both `tor_cmd` and an integer `config.SocksPort`, so the map's
values win over the explicit `socks_port` and `tor_path` arguments. -/
theorem init_merge_precedence_witness :
    (⟨some "usrtor", 9050,
        ⟨some "usrtor", some (some (.pyStr "9050"))⟩⟩ : InitResult).merged.tor_cmd =
      some "usrtor" ∧
    (⟨some "usrtor", 9050,
        ⟨some "usrtor", some (some (.pyStr "9050"))⟩⟩ : InitResult).tor_path =
      some "usrtor" :=
  (init_merge_precedence 9051 (some "argtor")
      ⟨some "usrtor", some (some (.pyInt 9050))⟩ _ rfl).1 "usrtor" rfl
